import Mathlib

/-!
# Verification of the SEO-insights service layer (vendor.seo.service.ts)

This file gives a shallow embedding of the credential-cache / challenge-solver /
signature-exchange subsystem and the four response normalizers of the
repository's service file, and proves the specification's claims about them.

Modelling conventions:
* JavaScript values flowing through the service are modelled by the inductive
  type `Json` (numbers as integers — only defaulting and order comparisons
  occur in the source).
* `Option Json` models a possibly-`undefined` value; `Json.null` is JS `null`.
* Property access on a value that is known non-null is `Json.look`; the strict
  access `a.b` that throws a TypeError on a null/undefined receiver is modelled
  by matching the receiver against `none`/`some .null`; the optional chain
  `a?.b` is `jchain`.
* Wall-clock time (`Date.now() / 1000`) is an explicit integer parameter `now`,
  and the ISO-8601 parser `isoToTimestamp` is an explicit function parameter
  `isoToTs : String → Int` (its output is only ever compared against `now`).
* The cache file is the explicit state `FileRead`; a write that throws is the
  flag `writeFails`.
* Each axios request is an input: `NetOutcome`/`Option HttpResp`, where
  `.thrown`/`none` models a request that throws (network failure or a rejected
  non-2xx response).
-/

/-- A JavaScript/JSON value as it flows through the service. -/
inductive Json where
  | null : Json
  | bool (b : Bool) : Json
  | num (n : Int) : Json
  | str (s : String) : Json
  | arr (items : List Json) : Json
  | obj (fields : List (String × Json)) : Json
deriving Repr

/-- JS truthiness of a defined value. -/
def Json.truthy : Json → Bool
  | .null => false
  | .bool b => b
  | .num n => n != 0
  | .str s => s != ""
  | .arr _ => true
  | .obj _ => true

/-- JS truthiness of a possibly-`undefined` value. -/
def truthyOpt : Option Json → Bool
  | none => false
  | some j => j.truthy

/-- Property access `o[k]` on a receiver known to be non-null: an object yields
its field, a primitive or array yields `undefined` for the string keys the
source uses. -/
def Json.look : Json → String → Option Json
  | .obj fields, k => fields.lookup k
  | _, _ => none

/-- Optional-chaining access `o?.k`. -/
def jchain : Option Json → String → Option Json
  | none, _ => none
  | some .null, _ => none
  | some j, k => j.look k

/-- Index access `o[i]` on a non-null receiver (array element, or the
one-character string for string indexing). -/
def Json.idx : Json → Nat → Option Json
  | .arr items, i => items.get? i
  | .str s, i => (s.data.get? i).map (fun c => Json.str (String.mk [c]))
  | _, _ => none

/-- Index access through an optional value, `o?.[i]` / `o[i]` with `o` known
truthy. -/
def jidx : Option Json → Nat → Option Json
  | none, _ => none
  | some .null, _ => none
  | some j, i => j.idx i

/-- Strict-equality comparison of a value against a string literal
(`x === "tag"`): true exactly for the equal string. -/
def isTag (o : Option Json) (t : String) : Bool :=
  match o with
  | some (.str s) => s == t
  | _ => false

/-- The JS defaulting idiom `x || d`: the value when truthy, else the default. -/
def jor (x : Option Json) (d : Json) : Json :=
  match x with
  | some v => if v.truthy then v else d
  | none => d

example : truthyOpt (jchain (some (Json.obj [("a", .num 3)])) "a") = true := rfl
example : jor (some (Json.str "")) (Json.str "x") = Json.str "x" := rfl

/-! ## Credential cache (`loadSignatureFromCache` / `saveSignatureToCache`) -/

/-- What reading the cache file yields: the file may be absent, present but
not valid JSON (`JSON.parse` throws), or parse to a value. -/
inductive FileRead where
  | missing : FileRead
  | unparsable : FileRead
  | parsed (content : Json) : FileRead

/-- Cache read `loadSignatureFromCache(domain)`: returns the
`[signature, validUntil, overviewData]` triple from the store when the entry
for `domain` exists and its `validUntil` is strictly in the future, and
`[null, null, null]` otherwise.  `now` is `Date.now() / 1000`; `isoToTs` is
`isoToTimestamp`.  Every internal throw (unparsable store, `isoToTimestamp` on
a truthy non-string `validUntil`) is caught by the source's `try`/`catch` and
yields the null triple. -/
def loadSignatureFromCache (file : FileRead) (now : Int) (isoToTs : String → Int)
    (domain : String) : Option Json × Option Json × Option Json :=
  match file with
  | .missing => (none, none, none)
  | .unparsable => (none, none, none)
  | .parsed cacheData =>
    match cacheData.look domain with
    | none => (none, none, none)
    | some domainCache =>
      if !domainCache.truthy then (none, none, none)
      else
        match domainCache.look "validUntil" with
        | some (.str s) =>
          if (Json.str s).truthy then
            if now < isoToTs s then
              (domainCache.look "signature", some (.str s),
                domainCache.look "overviewData")
            else (none, none, none)
          else (none, none, none)
        | some _ => (none, none, none)
        | none => (none, none, none)

/-- Store update `cacheData[domain] = entry` on the parsed store object: replace in place
when the key exists, append otherwise. -/
def cacheSet (fields : List (String × Json)) (k : String) (v : Json) :
    List (String × Json) :=
  if fields.any (fun p => p.1 == k) then
    fields.map (fun p => bif p.1 == k then (k, v) else p)
  else fields ++ [(k, v)]

/-- The readable part of a previous store: a parsed object gives its entries;
a missing or unparsable file (and non-object content, out of the claims'
scope) starts a fresh store, as in the source's `catch`-and-continue read. -/
def readableStore : FileRead → List (String × Json)
  | .parsed (.obj fields) => fields
  | _ => []

/-- The cache entry object written by `saveSignatureToCache`.  An `undefined`
`overviewData` is dropped by `JSON.stringify`, hence the optional field. -/
def cacheEntry (signature validUntil : Json) (overviewData : Option Json)
    (now : Int) : Json :=
  .obj ([("signature", signature), ("validUntil", validUntil)] ++
    (match overviewData with
     | some ov => [("overviewData", ov)]
     | none => []) ++ [("timestamp", .num now)])

/-- Cache write `saveSignatureToCache(signature, validUntil, overviewData, domain)`:
merges the entry into whatever part of the previous store was readable and
writes the whole store back; returns `false` (never raises) when the write
throws, `true` otherwise.  Returns the success flag and the file state after
the call. -/
def saveSignatureToCache (file : FileRead) (writeFails : Bool) (now : Int)
    (signature validUntil : Json) (overviewData : Option Json)
    (domain : String) : Bool × FileRead :=
  let cacheData := readableStore file
  let newData := cacheSet cacheData domain
    (cacheEntry signature validUntil overviewData now)
  if writeFails then (false, file)
  else (true, .parsed (.obj newData))

/-! ## Challenge solver client (`getCapsolverToken`) -/

/-- The outcome of one axios request: the parsed response body, or a thrown
rejection (network failure / non-2xx status). -/
inductive NetOutcome where
  | thrown : NetOutcome
  | resp (data : Json) : NetOutcome

/-- The environment the solver runs against: the API key (`""` models an
unset or empty, i.e. falsy, `CAPSOLVER_API_KEY`), the `createTask` response,
and the `getTaskResult` response for each polling attempt. -/
structure SolverEnv where
  apiKey : String
  createResp : NetOutcome
  polls : Nat → NetOutcome

/-- The polling loop of `getCapsolverToken`, by remaining attempts.  Each
iteration sleeps one fixed 1-second interval and then polls once; the result
is the returned value (the token — possibly `undefined`, i.e. `none` — on
`status === "ready"`; `null` on failure, thrown poll, or exhaustion) together
with the number of polls performed. -/
def pollLoop (polls : Nat → NetOutcome) : Nat → Nat → Option Json × Nat
  | _, 0 => (none, 0)
  | attempt, fuel + 1 =>
    match polls attempt with
    | .thrown => (none, 1)
    | .resp d =>
      if isTag (jchain (some d) "status") "ready" then
        (jchain (jchain (some d) "solution") "token", 1)
      else if isTag (jchain (some d) "status") "failed" ||
          truthyOpt (jchain (some d) "errorId") then
        (none, 1)
      else
        let r := pollLoop polls (attempt + 1) fuel
        (r.1, r.2 + 1)

/-- The `maxAttempts` bound of the polling loop. -/
def maxAttempts : Nat := 30

/-- Solver `getCapsolverToken(siteUrl)`: returns the solved token (or `none` for the
source's `null`/`undefined`), whether the `createTask` request was attempted,
and how many polls were made. -/
def getCapsolverToken (env : SolverEnv) : Option Json × Bool × Nat :=
  if env.apiKey == "" then (none, false, 0)
  else
    match env.createResp with
    | .thrown => (none, true, 0)
    | .resp d =>
      let taskId := jchain (some d) "taskId"
      if !truthyOpt taskId then (none, true, 0)
      else
        let r := pollLoop env.polls 0 maxAttempts
        (r.1, true, r.2)

/-! ## Signature exchange client (`getSignatureAndOverview`) -/

/-- An axios response that resolved: status code and parsed body. -/
structure HttpResp where
  status : Nat
  data : Json

/-- The chain `data[1]?.signedInput?.signature` of a mint response body. -/
def sigChain (d : Json) : Option Json :=
  jchain (jchain (jidx (some d) 1) "signedInput") "signature"

/-- The chain `data[1]?.signedInput?.input?.validUntil` of a mint response body. -/
def vuChain (d : Json) : Option Json :=
  jchain (jchain (jchain (jidx (some d) 1) "signedInput") "input") "validUntil"

/-- The chain `data[1]?.data` of a mint response body (the auxiliary overview payload). -/
def ovChain (d : Json) : Option Json :=
  jchain (jidx (some d) 1) "data"

/-- Mint `getSignatureAndOverview(token, domain)`: exchanges a solved token for the
`[signature, validUntil, overviewData]` credential.  On success it first
persists the credential through `saveSignatureToCache`; on any failure
(thrown request, status other than 200, array shape mismatch, falsy
`signature` or `validUntil`) it returns the null triple without raising.
Result: the triple, the cache file afterwards, and whether save was invoked. -/
def getSignatureAndOverview (file : FileRead) (writeFails : Bool) (now : Int)
    (resp : Option HttpResp) (domain : String) :
    (Option Json × Option Json × Option Json) × FileRead × Bool :=
  match resp with
  | none => ((none, none, none), file, false)
  | some r =>
    if r.status != 200 then ((none, none, none), file, false)
    else
      let d := r.data
      let isArr := match d with | .arr _ => true | _ => false
      let len := match d with | .arr items => items.length | _ => 0
      if isArr && len > 1 then
        let signature := sigChain d
        let validUntil := vuChain d
        let overviewData := ovChain d
        if truthyOpt signature && truthyOpt validUntil then
          let sg := signature.getD .null
          let vu := validUntil.getD .null
          let save := saveSignatureToCache file writeFails now sg vu
            overviewData domain
          ((some sg, some vu, overviewData), save.2, true)
        else ((none, none, none), file, false)
      else ((none, none, none), file, false)

/-! ## Errors (`McpError` / `ErrorType`) -/

/-- The error categories of `error.util.ts` used by the service. -/
inductive ErrorType where
  | API_ERROR : ErrorType
  | UNEXPECTED_ERROR : ErrorType
deriving DecidableEq, Repr

/-- The `McpError` thrown by the executors. -/
structure McpError where
  message : String
  errorType : ErrorType
  statusCode : Nat
deriving DecidableEq, Repr

/-! ## Backlinks normalization (`formatBacklinks`) -/

/-- The seven fields a normalized backlink item carries. -/
structure BacklinkItem where
  anchor : Json
  domainRating : Json
  title : Json
  urlFrom : Json
  urlTo : Json
  edu : Json
  gov : Json

/-- The per-item projection of `formatBacklinks` on a non-null item: each
field is the item's property defaulted (`|| ""` / `|| 0` / `|| false`). -/
def backlinkFields (b : Json) : BacklinkItem where
  anchor := jor (b.look "anchor") (.str "")
  domainRating := jor (b.look "domainRating") (.num 0)
  title := jor (b.look "title") (.str "")
  urlFrom := jor (b.look "urlFrom") (.str "")
  urlTo := jor (b.look "urlTo") (.str "")
  edu := jor (b.look "edu") (.bool false)
  gov := jor (b.look "gov") (.bool false)

/-- The map callback of `formatBacklinks`: property access on a `null` item
throws a TypeError (modelled as `.error ()`), any other item is projected. -/
def mkBacklinkItem (backlink : Json) : Except Unit BacklinkItem :=
  match backlink with
  | .null => .error ()
  | b => .ok (backlinkFields b)

/-- A `.map`/`for..of` body over a list, where the callback may throw: stops
at the first throw. -/
def mapExcept (f : Json → Except Unit α) : List Json → Except Unit (List α)
  | [] => .ok []
  | a :: t =>
    match f a with
    | .error e => .error e
    | .ok x =>
      match mapExcept f t with
      | .error e => .error e
      | .ok xs => .ok (x :: xs)

/-- The chain `backlinksData[1]?.topBacklinks?.backlinks`. -/
def backlinksChain (d : Json) : Option Json :=
  jchain (jchain (jidx (some d) 1) "topBacklinks") "backlinks"

/-- The guard of `formatBacklinks`: the body is truthy, an array of length
above 1, and carries a truthy `topBacklinks.backlinks` payload. -/
def backlinksCond (d : Json) : Bool :=
  d.truthy && (match d with | .arr _ => true | _ => false) &&
  decide ((match d with | .arr items => items.length | _ => 0) > 1) &&
  truthyOpt (backlinksChain d)

/-- Normalizer `formatBacklinks(backlinksData)`: when the guard holds, map each backlink
to its seven defaulted fields; otherwise return the empty list.  A truthy
non-array payload has no `.map`, a TypeError (`.error ()`). -/
def formatBacklinks (backlinksData : Json) : Except Unit (List BacklinkItem) :=
  if backlinksCond backlinksData then
    match backlinksChain backlinksData with
    | some (.arr items) => mapExcept mkBacklinkItem items
    | _ => .error ()
  else .ok []

/-! ## Keyword-ideas normalization (`formatKeywordIdeas`) -/

/-- The five fields of a normalized keyword idea. -/
structure IdeaValue where
  keyword : Json
  country : Json
  difficulty : Json
  volume : Json
  updatedAt : Json

/-- One entry of the normalized keyword-ideas list. -/
structure IdeaEntry where
  label : String
  value : IdeaValue

/-- The per-idea projection on a non-null idea: the defaulted five fields
(`difficulty`/`volume` read `difficultyLabel`/`volumeLabel`). -/
def ideaFields (i : Json) : IdeaValue where
  keyword := jor (i.look "keyword") (.str "No keyword")
  country := jor (i.look "country") (.str "-")
  difficulty := jor (i.look "difficultyLabel") (.str "Unknown")
  volume := jor (i.look "volumeLabel") (.str "Unknown")
  updatedAt := jor (i.look "updatedAt") (.str "-")

/-- The loop body of `formatKeywordIdeas`: accessing a property of a `null`
idea throws. -/
def mkIdeaValue (idea : Json) : Except Unit IdeaValue :=
  match idea with
  | .null => .error ()
  | i => .ok (ideaFields i)

/-- One `results` group of `formatKeywordIdeas`: skipped when falsy, iterated
with `for..of` otherwise (an array element-wise, a string character-wise, any
other truthy value is not iterable and throws). -/
def ideasGroup (res : Option Json) (label : String) :
    Except Unit (List IdeaEntry) :=
  if truthyOpt res then
    match res with
    | some (.arr items) =>
      mapExcept (fun i => (mkIdeaValue i).map (fun v => ⟨label, v⟩)) items
    | some (.str s) =>
      mapExcept (fun i => (mkIdeaValue i).map (fun v => ⟨label, v⟩))
        (s.data.map (fun c => Json.str (String.mk [c])))
    | _ => .error ()
  else .ok []

/-- Normalizer `formatKeywordIdeas(keywordData)`: the empty list unless the body is a
truthy array of length at least 2; otherwise all `allIdeas.results` entries
(label "keyword ideas") followed by all `questionIdeas.results` entries
(label "question ideas"), each group in received order. -/
def formatKeywordIdeas (keywordData : Json) : Except Unit (List IdeaEntry) :=
  let isArr := match keywordData with | .arr _ => true | _ => false
  let len := match keywordData with | .arr items => items.length | _ => 0
  if !keywordData.truthy || !isArr || len < 2 then .ok []
  else
    let data := jidx (some keywordData) 1
    do
      let a ← ideasGroup (jchain (jchain data "allIdeas") "results")
        "keyword ideas"
      let b ← ideasGroup (jchain (jchain data "questionIdeas") "results")
        "question ideas"
      return a ++ b

/-! ## Backlinks executor (`getBacklinks`) -/

/-- The normalized result of `getBacklinks`. -/
structure BacklinksResult where
  overview : Option Json
  backlinks : List BacklinkItem

/-- Everything `getBacklinks` interacts with: the cache file and clock, the
solver's environment, and the two platform responses (`none` models a thrown
request). -/
structure BacklinksEnv where
  file : FileRead
  writeFails : Bool
  now : Int
  isoToTs : String → Int
  solver : SolverEnv
  mintResp : Option HttpResp
  listResp : Option HttpResp

/-- Step 3 of `getBacklinks`: the `stGetFreeBacklinksList` request and the
normalization of its body.  A thrown request or a TypeError inside
`formatBacklinks` is wrapped as `UNEXPECTED_ERROR` by the outer catch; a
non-200 status throws `API_ERROR` with that status. -/
def backlinksListStep (listResp : Option HttpResp) (domain : String)
    (overviewData : Option Json) : Except McpError BacklinksResult :=
  match listResp with
  | none => .error ⟨"Failed to get backlinks for domain: " ++ domain,
      .UNEXPECTED_ERROR, 500⟩
  | some r =>
    if r.status != 200 then
      .error ⟨"Failed to get backlinks for domain: " ++ domain,
        .API_ERROR, r.status⟩
    else
      match formatBacklinks r.data with
      | .ok backlinks => .ok ⟨overviewData, backlinks⟩
      | .error _ => .error ⟨"Failed to get backlinks for domain: " ++ domain,
          .UNEXPECTED_ERROR, 500⟩

/-- Executor `getBacklinks(domain)`: load the credential from the cache; on a miss
(falsy signature or validUntil) solve a challenge and mint a fresh credential,
throwing `API_ERROR` when either step fails; then fetch and normalize the
backlinks list.  Result: the outcome, the cache file afterwards, whether the
solver was invoked, and whether the mint request was invoked. -/
def getBacklinks (env : BacklinksEnv) (domain : String) :
    Except McpError BacklinksResult × FileRead × Bool × Bool :=
  let loaded := loadSignatureFromCache env.file env.now env.isoToTs domain
  if !truthyOpt loaded.1 || !truthyOpt loaded.2.1 then
    let token := (getCapsolverToken env.solver).1
    if !truthyOpt token then
      (.error ⟨"Failed to get verification token for domain: " ++ domain,
        .API_ERROR, 500⟩, env.file, true, false)
    else
      let mint := getSignatureAndOverview env.file env.writeFails env.now
        env.mintResp domain
      if !truthyOpt mint.1.1 || !truthyOpt mint.1.2.1 then
        (.error ⟨"Failed to get signature for domain: " ++ domain,
          .API_ERROR, 500⟩, mint.2.1, true, true)
      else
        (backlinksListStep env.listResp domain mint.1.2.2, mint.2.1,
          true, true)
  else
    (backlinksListStep env.listResp domain loaded.2.2, env.file, false, false)

/-! ## Keyword-difficulty executor (`getKeywordDifficulty`) -/

/-- The metrics block `Object.assign`ed onto a SERP result when present. -/
structure SerpMetrics where
  domainRating : Json
  urlRating : Json
  traffic : Json
  keywords : Json
  topKeyword : Json
  topVolume : Json

/-- One normalized organic SERP result. -/
structure SerpItem where
  title : Json
  url : Json
  position : Json
  metrics : Option SerpMetrics

/-- The loop body over `kdData.serp.results`: `none` when the item is
filtered out (not organic / no `"Some"` link), `.error ()` when a strict
property access throws. -/
def mkSerpItem (item : Json) : Except Unit (Option SerpItem) :=
  match item with
  | .null => .error ()
  | it =>
    let content := it.look "content"
    if truthyOpt content && isTag (jidx content 0) "organic" then
      match jidx content 1 with
      | none => .error ()
      | some .null => .error ()
      | some od =>
        let link := od.look "link"
        if truthyOpt link && isTag (jidx link 0) "Some" then
          match jidx link 1 with
          | none => .error ()
          | some .null => .error ()
          | some ld =>
            let base : SerpItem :=
              { title := jor (ld.look "title") (.str ""),
                url := jor (jchain (jidx (ld.look "url") 1) "url") (.str ""),
                position := jor (it.look "pos") (.num 0),
                metrics := none }
            let metrics := ld.look "metrics"
            if truthyOpt metrics then
              match metrics with
              | some m =>
                let ms : SerpMetrics :=
                  { domainRating := jor (m.look "domainRating") (.num 0),
                    urlRating := jor (m.look "urlRating") (.num 0),
                    traffic := jor (m.look "traffic") (.num 0),
                    keywords := jor (m.look "keywords") (.num 0),
                    topKeyword := jor (m.look "topKeyword") (.str ""),
                    topVolume := jor (m.look "topVolume") (.num 0) }
                .ok (some { base with metrics := some ms })
              | none => .error ()
            else .ok (some base)
        else .ok none
    else .ok none

/-- The `for..of` loop over `kdData.serp?.results` (skipped when falsy,
throwing on a truthy non-iterable). -/
def serpLoop (results : Option Json) : Except Unit (List SerpItem) :=
  if truthyOpt results then
    match results with
    | some (.arr items) =>
      (mapExcept mkSerpItem items).map (fun xs => xs.filterMap id)
    | some (.str s) =>
      (mapExcept mkSerpItem
        (s.data.map (fun c => Json.str (String.mk [c])))).map
        (fun xs => xs.filterMap id)
    | _ => .error ()
  else .ok []

/-- The normalized keyword-difficulty result. -/
structure KdResult where
  difficulty : Json
  shortage : Json
  lastUpdate : Json
  serpResults : List SerpItem

/-- The source's top-level shape check for the keyword-difficulty and traffic
bodies: an array of length at least 2 whose first element is `"Ok"`. -/
def okTagged (d : Json) : Bool :=
  (match d with | .arr _ => true | _ => false) &&
  (match d with | .arr items => items.length | _ => 0) ≥ 2 &&
  isTag (jidx (some d) 0) "Ok"

/-- The environment of `getKeywordDifficulty`: solver plus the
`stGetFreeSerpOverviewForKeywordDifficultyChecker` response. -/
structure KdEnv where
  solver : SolverEnv
  kdResp : Option HttpResp

/-- Executor `getKeywordDifficulty(keyword, country)`: solve a fresh challenge, call
the difficulty endpoint, and normalize.  A body that is not an
`"Ok"`-tagged array of length at least 2 throws the Invalid-response-format
`API_ERROR`; a TypeError during normalization is wrapped as
`UNEXPECTED_ERROR`. -/
def getKeywordDifficulty (env : KdEnv) (keyword : String) :
    Except McpError KdResult :=
  let token := (getCapsolverToken env.solver).1
  if !truthyOpt token then
    .error ⟨"Failed to get verification token for keyword: " ++ keyword,
      .API_ERROR, 500⟩
  else
    match env.kdResp with
    | none => .error ⟨"Failed to get keyword difficulty for keyword: " ++
        keyword, .UNEXPECTED_ERROR, 500⟩
    | some r =>
      if r.status != 200 then
        .error ⟨"Failed to get keyword difficulty for keyword: " ++ keyword,
          .API_ERROR, r.status⟩
      else if !okTagged r.data then
        .error ⟨"Invalid response format from Ahrefs API for keyword: " ++
          keyword, .API_ERROR, 500⟩
      else
        match jidx (some r.data) 1 with
        | none => .error ⟨"Failed to get keyword difficulty for keyword: " ++
            keyword, .UNEXPECTED_ERROR, 500⟩
        | some .null => .error ⟨"Failed to get keyword difficulty for " ++
            "keyword: " ++ keyword, .UNEXPECTED_ERROR, 500⟩
        | some kd =>
          match serpLoop (jchain (kd.look "serp") "results") with
          | .error _ => .error ⟨"Failed to get keyword difficulty for " ++
              "keyword: " ++ keyword, .UNEXPECTED_ERROR, 500⟩
          | .ok serpResults =>
            .ok { difficulty := jor (kd.look "difficulty") (.num 0),
                  shortage := jor (kd.look "shortage") (.num 0),
                  lastUpdate := jor (kd.look "lastUpdate") (.str ""),
                  serpResults }

/-! ## Traffic executor (`checkTraffic`) -/

/-- The nested `traffic` averages of the normalized traffic result. -/
structure TrafficAvg where
  trafficMonthlyAvg : Json
  costMontlyAvg : Json

/-- The normalized traffic result. -/
structure TrafficResult where
  traffic_history : Json
  traffic : TrafficAvg
  top_pages : Json
  top_countries : Json
  top_keywords : Json

/-- The environment of `checkTraffic`: solver plus the
`stGetFreeTrafficOverview` response. -/
structure TrafficEnv where
  solver : SolverEnv
  trafficResp : Option HttpResp

/-- Executor `checkTraffic(domainOrUrl, mode, country)`: solve a fresh challenge, call
the traffic endpoint, and normalize with empty-list / zero defaults.  A body
that is not an `"Ok"`-tagged array of length at least 2 throws the
Invalid-response-format `API_ERROR`; `["Ok", null]` throws a TypeError,
wrapped as `UNEXPECTED_ERROR`. -/
def checkTraffic (env : TrafficEnv) (domainOrUrl : String) :
    Except McpError TrafficResult :=
  let token := (getCapsolverToken env.solver).1
  if !truthyOpt token then
    .error ⟨"Failed to get verification token for domain: " ++ domainOrUrl,
      .API_ERROR, 500⟩
  else
    match env.trafficResp with
    | none => .error ⟨"Failed to check traffic for domain: " ++ domainOrUrl,
        .UNEXPECTED_ERROR, 500⟩
    | some r =>
      if r.status != 200 then
        .error ⟨"Failed to check traffic for domain: " ++ domainOrUrl,
          .API_ERROR, r.status⟩
      else if !okTagged r.data then
        .error ⟨"Invalid response format from Ahrefs API for domain: " ++
          domainOrUrl, .API_ERROR, 500⟩
      else
        match jidx (some r.data) 1 with
        | none => .error ⟨"Failed to check traffic for domain: " ++
            domainOrUrl, .UNEXPECTED_ERROR, 500⟩
        | some .null => .error ⟨"Failed to check traffic for domain: " ++
            domainOrUrl, .UNEXPECTED_ERROR, 500⟩
        | some td =>
          .ok { traffic_history := jor (td.look "traffic_history") (.arr []),
                traffic :=
                  { trafficMonthlyAvg :=
                      jor (jchain (td.look "traffic") "trafficMonthlyAvg")
                        (.num 0),
                    costMontlyAvg :=
                      jor (jchain (td.look "traffic") "costMontlyAvg")
                        (.num 0) },
                top_pages := jor (td.look "top_pages") (.arr []),
                top_countries := jor (td.look "top_countries") (.arr []),
                top_keywords := jor (td.look "top_keywords") (.arr []) }

/-- The success condition the amended C2 states: status exactly 200, body an
array of length above 1, and the nested `signedInput.signature` and
`signedInput.input.validUntil` both truthy. -/
def mintSuccessSpec (resp : Option HttpResp) : Bool :=
  match resp with
  | none => false
  | some r =>
    r.status == 200 &&
    (match r.data with
     | .arr items => decide (items.length > 1)
     | _ => false) &&
    truthyOpt (sigChain r.data) && truthyOpt (vuChain r.data)

/-- A 200-status mint body whose `signature` is present but the empty string
(falsy). -/
def c2EmptySigBody : Json :=
  .arr [.str "Ok", .obj [("signedInput", .obj [("signature", .str ""),
    ("input", .obj [("validUntil", .str "2030-01-01T00:00:00Z")])])]]

/-- A fully well-formed mint body (truthy signature and validUntil). -/
def c2GoodBody : Json :=
  .arr [.str "Ok", .obj [("signedInput", .obj [("signature", .str "sig"),
    ("input", .obj [("validUntil", .str "2030-01-01T00:00:00Z")])])]]

/-- The "keep polling" condition of one poll response: status neither
`"ready"` nor `"failed"` and no truthy `errorId`. -/
def pollContinues (d : Json) : Bool :=
  !isTag (jchain (some d) "status") "ready" &&
  !(isTag (jchain (some d) "status") "failed" ||
    truthyOpt (jchain (some d) "errorId"))

/-! ## Smoke tests of the embedding on concrete values -/

example :
    formatBacklinks (.arr [.str "x",
      .obj [("topBacklinks", .obj [("backlinks",
        .arr [.obj [("anchor", .str "a"), ("edu", .bool true)]])])]]) =
    .ok [{ anchor := .str "a", domainRating := .num 0, title := .str "",
           urlFrom := .str "", urlTo := .str "", edu := .bool true,
           gov := .bool false }] := rfl

example : formatBacklinks (.obj [("topBacklinks", .null)]) = .ok [] := rfl

example :
    formatKeywordIdeas (.arr [.str "Ok",
      .obj [("allIdeas", .obj [("results", .arr [.obj [("keyword", .str "a")]])]),
            ("questionIdeas",
              .obj [("results", .arr [.obj [("keyword", .str "b")]])])]]) =
    .ok [⟨"keyword ideas", ⟨.str "a", .str "-", .str "Unknown", .str "Unknown",
            .str "-"⟩⟩,
         ⟨"question ideas", ⟨.str "b", .str "-", .str "Unknown", .str "Unknown",
            .str "-"⟩⟩] := rfl

example :
    getCapsolverToken ⟨"key", .resp (.obj [("taskId", .str "t")]),
      fun _ => .resp (.obj [("status", .str "ready"),
        ("solution", .obj [("token", .str "tok")])])⟩ =
    (some (.str "tok"), true, 1) := rfl

example :
    getCapsolverToken ⟨"key", .resp (.obj [("taskId", .str "t")]),
      fun _ => .resp (.obj [("status", .str "pending")])⟩ =
    (none, true, 30) := rfl

/-! ## C6: non-Ok-tagged bodies are hard errors for difficulty and traffic -/

/-- C6: for every keyword-difficulty and every traffic response body reached
with a solved token and a 200 status, normalization raises the hard
Invalid-response-format `McpError` (an `API_ERROR`, not a soft empty result)
whenever the body is not an array of length at least 2 whose first element is
the tag `"Ok"`. -/
theorem c6_non_ok_tag_raises_invalid_response_format :
    ∀ (kenv : KdEnv) (tenv : TrafficEnv) (keyword domainOrUrl : String)
      (r1 r2 : HttpResp),
      truthyOpt (getCapsolverToken kenv.solver).1 = true →
      kenv.kdResp = some r1 → r1.status = 200 → okTagged r1.data = false →
      truthyOpt (getCapsolverToken tenv.solver).1 = true →
      tenv.trafficResp = some r2 → r2.status = 200 →
      okTagged r2.data = false →
      getKeywordDifficulty kenv keyword =
        .error ⟨"Invalid response format from Ahrefs API for keyword: " ++
          keyword, .API_ERROR, 500⟩ ∧
      checkTraffic tenv domainOrUrl =
        .error ⟨"Invalid response format from Ahrefs API for domain: " ++
          domainOrUrl, .API_ERROR, 500⟩ := by
  intro kenv tenv keyword domainOrUrl r1 r2 htok1 hr1 hs1 hok1 htok2 hr2
    hs2 hok2
  constructor
  · simp [getKeywordDifficulty, htok1, hr1, hs1, hok1]
  · simp [checkTraffic, htok2, hr2, hs2, hok2]

/-- Witness for C6: a concrete solver environment that yields a token and
concrete 200-status bodies `["NotOk", {}]` and `"junk"`. -/
theorem c6_non_ok_tag_raises_invalid_response_format_witness :
    getKeywordDifficulty
      ⟨⟨"key", .resp (.obj [("taskId", .str "t")]),
        fun _ => .resp (.obj [("status", .str "ready"),
          ("solution", .obj [("token", .str "tok")])])⟩,
       some ⟨200, .arr [.str "NotOk", .obj []]⟩⟩ "lean" =
      .error ⟨"Invalid response format from Ahrefs API for keyword: lean",
        .API_ERROR, 500⟩ ∧
    checkTraffic
      ⟨⟨"key", .resp (.obj [("taskId", .str "t")]),
        fun _ => .resp (.obj [("status", .str "ready"),
          ("solution", .obj [("token", .str "tok")])])⟩,
       some ⟨200, .str "junk"⟩⟩ "d.com" =
      .error ⟨"Invalid response format from Ahrefs API for domain: d.com",
        .API_ERROR, 500⟩ :=
  c6_non_ok_tag_raises_invalid_response_format
    ⟨⟨"key", .resp (.obj [("taskId", .str "t")]),
      fun _ => .resp (.obj [("status", .str "ready"),
        ("solution", .obj [("token", .str "tok")])])⟩,
     some ⟨200, .arr [.str "NotOk", .obj []]⟩⟩
    ⟨⟨"key", .resp (.obj [("taskId", .str "t")]),
      fun _ => .resp (.obj [("status", .str "ready"),
        ("solution", .obj [("token", .str "tok")])])⟩,
     some ⟨200, .str "junk"⟩⟩
    "lean" "d.com" ⟨200, .arr [.str "NotOk", .obj []]⟩ ⟨200, .str "junk"⟩
    rfl rfl rfl rfl rfl rfl rfl rfl

/-! ## C7: backlinks normalization -/

theorem mapExcept_mkBacklinkItem (items : List Json)
    (h : ∀ i ∈ items, i ≠ .null) :
    mapExcept mkBacklinkItem items = .ok (items.map backlinkFields) := by
  induction items with
  | nil => rfl
  | cons a t ih =>
    have ha : a ≠ .null := h a (List.mem_cons_self a t)
    have hmk : mkBacklinkItem a = .ok (backlinkFields a) := by
      cases a with
      | null => exact absurd rfl ha
      | bool b => rfl
      | num n => rfl
      | str s => rfl
      | arr l => rfl
      | obj f => rfl
    have ht : ∀ i ∈ t, i ≠ Json.null :=
      fun i hi => h i (List.mem_cons_of_mem a hi)
    simp [mapExcept, hmk, ih ht]

/-- C7: backlinks normalization maps every (non-null) item of the backlinks
array to exactly the seven fields `{anchor, domainRating, title, urlFrom,
urlTo, edu, gov}`, substituting `""` for a missing `anchor`/`title`/
`urlFrom`/`urlTo`, `0` for a missing `domainRating`, and `false` for missing
`edu`/`gov`; and for every input that fails the guard (not a truthy array of
length above 1 containing a truthy `topBacklinks.backlinks` payload) it
yields the empty list without raising. -/
theorem c7_format_backlinks_defaults_and_empty_on_malformed :
    (∀ d : Json, backlinksCond d = false → formatBacklinks d = .ok []) ∧
    (∀ (l items : List Json), backlinksChain (.arr l) = some (.arr items) →
      l.length > 1 → (∀ i ∈ items, i ≠ .null) →
      formatBacklinks (.arr l) = .ok (items.map backlinkFields)) ∧
    (∀ fields : List (String × Json),
      (fields.lookup "anchor" = none →
        (backlinkFields (.obj fields)).anchor = .str "") ∧
      (fields.lookup "domainRating" = none →
        (backlinkFields (.obj fields)).domainRating = .num 0) ∧
      (fields.lookup "title" = none →
        (backlinkFields (.obj fields)).title = .str "") ∧
      (fields.lookup "urlFrom" = none →
        (backlinkFields (.obj fields)).urlFrom = .str "") ∧
      (fields.lookup "urlTo" = none →
        (backlinkFields (.obj fields)).urlTo = .str "") ∧
      (fields.lookup "edu" = none →
        (backlinkFields (.obj fields)).edu = .bool false) ∧
      (fields.lookup "gov" = none →
        (backlinkFields (.obj fields)).gov = .bool false)) := by
  refine ⟨?_, ?_, ?_⟩
  · intro d h
    simp [formatBacklinks, h]
  · intro l items hchain hlen hnn
    have hcond : backlinksCond (.arr l) = true := by
      simp [backlinksCond, hchain, hlen, Json.truthy, truthyOpt]
    simp [formatBacklinks, hcond, hchain, mapExcept_mkBacklinkItem items hnn]
  · intro fields
    refine ⟨?_, ?_, ?_, ?_, ?_, ?_, ?_⟩ <;> intro h <;>
      simp [backlinkFields, Json.look, h, jor]

/-- Witness for C7 at concrete inputs: a malformed body normalizes to the
empty list; a well-formed body is mapped field-wise with defaults. -/
theorem c7_format_backlinks_defaults_witness :
    formatBacklinks (.obj [("topBacklinks", .null)]) = .ok [] ∧
    formatBacklinks (.arr [.str "x",
      .obj [("topBacklinks", .obj [("backlinks",
        .arr [.obj [("anchor", .str "a"), ("edu", .bool true)]])])]]) =
      .ok [backlinkFields (.obj [("anchor", .str "a"),
        ("edu", .bool true)])] ∧
    (backlinkFields (.obj [("anchor", .str "a"), ("edu", .bool true)])).title =
      .str "" :=
  ⟨c7_format_backlinks_defaults_and_empty_on_malformed.1
      (.obj [("topBacklinks", .null)]) rfl,
   c7_format_backlinks_defaults_and_empty_on_malformed.2.1
      [.str "x", .obj [("topBacklinks", .obj [("backlinks",
        .arr [.obj [("anchor", .str "a"), ("edu", .bool true)]])])]]
      [.obj [("anchor", .str "a"), ("edu", .bool true)]] rfl
      (by norm_num)
      (by intro i hi
          simp only [List.mem_singleton] at hi
          subst hi
          exact fun h => Json.noConfusion h),
   (c7_format_backlinks_defaults_and_empty_on_malformed.2.2
      [("anchor", .str "a"), ("edu", .bool true)]).2.2.1 rfl⟩

/-! ## C8: keyword-ideas normalization -/

theorem mapExcept_mkIdeaValue (label : String) (items : List Json)
    (h : ∀ i ∈ items, i ≠ .null) :
    mapExcept (fun i => (mkIdeaValue i).map
        (fun v => IdeaEntry.mk label v)) items =
      .ok (items.map (fun i => IdeaEntry.mk label (ideaFields i))) := by
  induction items with
  | nil => rfl
  | cons a t ih =>
    have ha : a ≠ .null := h a (List.mem_cons_self a t)
    have hmk : mkIdeaValue a = .ok (ideaFields a) := by
      cases a with
      | null => exact absurd rfl ha
      | bool b => rfl
      | num n => rfl
      | str s => rfl
      | arr l => rfl
      | obj f => rfl
    have ht : ∀ i ∈ t, i ≠ Json.null :=
      fun i hi => h i (List.mem_cons_of_mem a hi)
    simp only [mapExcept, hmk, ih ht]
    rfl

/-- C8: keyword-ideas normalization produces one ordered list in which every
entry derived from the `allIdeas` group (label `"keyword ideas"`) precedes
every entry derived from the `questionIdeas` group (label `"question ideas"`),
within-group order preserved; each entry's value has exactly the five fields
`{keyword, country, difficulty, volume, updatedAt}`, with a missing `keyword`
defaulting to `"No keyword"`, missing `country`/`updatedAt` to `"-"`, and
missing `difficulty`/`volume` (read from `difficultyLabel`/`volumeLabel`) to
`"Unknown"`. -/
theorem c8_format_keyword_ideas_order_and_defaults :
    (∀ (x dat : Json) (rest allItems qItems : List Json),
      jchain (jchain (some dat) "allIdeas") "results" = some (.arr allItems) →
      jchain (jchain (some dat) "questionIdeas") "results" =
        some (.arr qItems) →
      (∀ i ∈ allItems, i ≠ .null) → (∀ i ∈ qItems, i ≠ .null) →
      formatKeywordIdeas (.arr (x :: dat :: rest)) =
        .ok (allItems.map (fun i => IdeaEntry.mk "keyword ideas"
              (ideaFields i)) ++
             qItems.map (fun i => IdeaEntry.mk "question ideas"
              (ideaFields i)))) ∧
    (∀ fields : List (String × Json),
      (fields.lookup "keyword" = none →
        (ideaFields (.obj fields)).keyword = .str "No keyword") ∧
      (fields.lookup "country" = none →
        (ideaFields (.obj fields)).country = .str "-") ∧
      (fields.lookup "difficultyLabel" = none →
        (ideaFields (.obj fields)).difficulty = .str "Unknown") ∧
      (fields.lookup "volumeLabel" = none →
        (ideaFields (.obj fields)).volume = .str "Unknown") ∧
      (fields.lookup "updatedAt" = none →
        (ideaFields (.obj fields)).updatedAt = .str "-")) := by
  constructor
  · intro x dat rest allItems qItems ha hq hna hnq
    have hdat : jidx (some (Json.arr (x :: dat :: rest))) 1 = some dat := rfl
    simp only [formatKeywordIdeas, hdat]
    have hlen : ¬((x :: dat :: rest).length < 2) := by simp
    simp only [Json.truthy, List.length_cons, hlen]
    simp only [ideasGroup, ha, hq, truthyOpt, Json.truthy, Bool.not_true,
      Bool.not_false, if_false, if_true]
    rw [mapExcept_mkIdeaValue "keyword ideas" allItems hna,
      mapExcept_mkIdeaValue "question ideas" qItems hnq]
    have hd : decide (rest.length + 1 + 1 < 2) = false := by
      simp only [decide_eq_false_iff_not]
      omega
    simp only [hd, Bool.or_false, Bool.false_or, Bool.false_eq_true,
      if_false]
    rfl
  · intro fields
    refine ⟨?_, ?_, ?_, ?_, ?_⟩ <;> intro h <;>
      simp [ideaFields, Json.look, h, jor]

/-- Witness for C8 at the spec's concrete example:
`{allIdeas: {results: [{keyword: "a"}]}, questionIdeas: {results:
[{keyword: "b"}]}}`. -/
theorem c8_format_keyword_ideas_order_witness :
    formatKeywordIdeas (.arr [.str "Ok",
      .obj [("allIdeas",
              .obj [("results", .arr [.obj [("keyword", .str "a")]])]),
            ("questionIdeas",
              .obj [("results", .arr [.obj [("keyword", .str "b")]])])]]) =
      .ok [IdeaEntry.mk "keyword ideas"
             (ideaFields (.obj [("keyword", .str "a")])),
           IdeaEntry.mk "question ideas"
             (ideaFields (.obj [("keyword", .str "b")]))] ∧
    (ideaFields (.obj [("keyword", .str "a")])).country = .str "-" :=
  ⟨c8_format_keyword_ideas_order_and_defaults.1 (.str "Ok")
      (.obj [("allIdeas",
          .obj [("results", .arr [.obj [("keyword", .str "a")]])]),
        ("questionIdeas",
          .obj [("results", .arr [.obj [("keyword", .str "b")]])])])
      [] [.obj [("keyword", .str "a")]] [.obj [("keyword", .str "b")]]
      rfl rfl
      (by intro i hi
          simp only [List.mem_singleton] at hi
          subst hi
          exact fun h => Json.noConfusion h)
      (by intro i hi
          simp only [List.mem_singleton] at hi
          subst hi
          exact fun h => Json.noConfusion h),
   (c8_format_keyword_ideas_order_and_defaults.2
      [("keyword", .str "a")]).2.1 rfl⟩

/-! ## Association-list lookup lemmas for the cache store -/

theorem lookup_append (l1 l2 : List (String × Json)) (k : String) :
    (l1 ++ l2).lookup k =
      (match l1.lookup k with
       | some v => some v
       | none => l2.lookup k) := by
  induction l1 with
  | nil => rfl
  | cons p t ih =>
    simp only [List.cons_append, List.lookup]
    split
    · rfl
    · exact ih

theorem lookup_none_of_not_any (l : List (String × Json)) (k : String)
    (h : l.any (fun p => p.1 == k) = false) : l.lookup k = none := by
  induction l with
  | nil => rfl
  | cons p t ih =>
    simp only [List.any_cons, Bool.or_eq_false_iff] at h
    have hk : (k == p.1) = false := by
      have := h.1
      simp only [beq_eq_false_iff_ne] at this ⊢
      exact fun hkk => this hkk.symm
    simp only [List.lookup, hk]
    exact ih h.2

theorem lookup_map_set_self (fields : List (String × Json)) (k : String)
    (v : Json) (h : fields.any (fun p => p.1 == k) = true) :
    (fields.map (fun p => bif p.1 == k then (k, v) else p)).lookup k =
      some v := by
  induction fields with
  | nil => simp at h
  | cons p t ih =>
    cases hp : (p.1 == k) with
    | true => simp [List.lookup, hp]
    | false =>
      have hk : (k == p.1) = false := by
        simp only [beq_eq_false_iff_ne] at hp ⊢
        exact fun hkk => hp hkk.symm
      have h' : t.any (fun p => p.1 == k) = true := by
        simp only [List.any_cons, hp, Bool.false_or] at h
        exact h
      simp [List.lookup, hp, hk, ih h']

theorem lookup_map_set_other (fields : List (String × Json)) (k k' : String)
    (v : Json) (h : k' ≠ k) :
    (fields.map (fun p => bif p.1 == k then (k, v) else p)).lookup k' =
      fields.lookup k' := by
  induction fields with
  | nil => rfl
  | cons p t ih =>
    cases hp : (p.1 == k) with
    | true =>
      have hpk : p.1 = k := by simpa using hp
      have h1 : (k' == k) = false := beq_eq_false_iff_ne.mpr h
      have h2 : (k' == p.1) = false := by rw [hpk]; exact h1
      simp [List.lookup, hp, h1, h2, ih]
    | false =>
      cases hk' : (k' == p.1) with
      | true => simp [List.lookup, hp, hk']
      | false => simp [List.lookup, hp, hk', ih]

theorem cacheSet_lookup_self (fields : List (String × Json)) (k : String)
    (v : Json) : (cacheSet fields k v).lookup k = some v := by
  unfold cacheSet
  split
  · exact lookup_map_set_self fields k v ‹_›
  · rename_i hany
    have hf : fields.any (fun p => p.1 == k) = false := by
      cases hb : fields.any (fun p => p.1 == k) with
      | true => exact absurd hb hany
      | false => rfl
    rw [lookup_append]
    rw [lookup_none_of_not_any fields k hf]
    simp [List.lookup]

theorem cacheSet_lookup_other (fields : List (String × Json)) (k k' : String)
    (v : Json) (h : k' ≠ k) :
    (cacheSet fields k v).lookup k' = fields.lookup k' := by
  unfold cacheSet
  split
  · exact lookup_map_set_other fields k k' v h
  · rw [lookup_append]
    have h1 : (k' == k) = false := beq_eq_false_iff_ne.mpr h
    cases hf : fields.lookup k' with
    | none => simp [List.lookup, h1]
    | some b => simp

/-! ## C9: cache save merges and tolerates write failure -/

/-- C9: `saveSignatureToCache` merges the new entry into whatever part of the
previous store was readable: in a readable (parsed-object) prior store every
other subject's entry is unchanged in the written store and the given
subject's entry is replaced wholesale by the fresh credential entry; a
missing or corrupt prior store is treated as empty; and when the write to the
backing file fails, save returns `false` without raising. -/
theorem c9_save_merges_readable_store_and_returns_false_on_write_failure :
    ∀ (file : FileRead) (wf : Bool) (now : Int) (sg vu : Json)
      (ov : Option Json) (domain : String),
      (wf = true →
        saveSignatureToCache file wf now sg vu ov domain = (false, file)) ∧
      (∀ cf : List (String × Json), file = .parsed (.obj cf) → wf = false →
        saveSignatureToCache file wf now sg vu ov domain =
          (true, .parsed (.obj (cacheSet cf domain
            (cacheEntry sg vu ov now)))) ∧
        (cacheSet cf domain (cacheEntry sg vu ov now)).lookup domain =
          some (cacheEntry sg vu ov now) ∧
        (∀ k, k ≠ domain →
          (cacheSet cf domain (cacheEntry sg vu ov now)).lookup k =
            cf.lookup k)) ∧
      ((file = .missing ∨ file = .unparsable) → wf = false →
        saveSignatureToCache file wf now sg vu ov domain =
          (true, .parsed (.obj [(domain, cacheEntry sg vu ov now)]))) := by
  intro file wf now sg vu ov domain
  refine ⟨?_, ?_, ?_⟩
  · intro h
    simp [saveSignatureToCache, h]
  · intro cf hf hw
    subst hf hw
    refine ⟨by simp [saveSignatureToCache, readableStore], ?_, ?_⟩
    · exact cacheSet_lookup_self cf domain _
    · intro k hk
      exact cacheSet_lookup_other cf domain k _ hk
  · intro hf hw
    subst hw
    cases hf with
    | inl h => subst h; simp [saveSignatureToCache, readableStore, cacheSet]
    | inr h => subst h; simp [saveSignatureToCache, readableStore, cacheSet]

/-- Witness for C9: a concrete failing write returns `false` and leaves the
file alone, and a concrete successful write merges into the readable store. -/
theorem c9_save_merges_readable_store_witness :
    saveSignatureToCache (.parsed (.obj [("a.com", .num 1)])) true 7
      (.str "sg") (.str "vu") none "b.com" =
      (false, .parsed (.obj [("a.com", .num 1)])) ∧
    saveSignatureToCache (.parsed (.obj [("a.com", .num 1)])) false 7
      (.str "sg") (.str "vu") none "b.com" =
      (true, .parsed (.obj [("a.com", .num 1),
        ("b.com", cacheEntry (.str "sg") (.str "vu") none 7)])) :=
  ⟨(c9_save_merges_readable_store_and_returns_false_on_write_failure
      (.parsed (.obj [("a.com", .num 1)])) true 7 (.str "sg") (.str "vu")
      none "b.com").1 rfl,
   ((c9_save_merges_readable_store_and_returns_false_on_write_failure
      (.parsed (.obj [("a.com", .num 1)])) false 7 (.str "sg") (.str "vu")
      none "b.com").2.1 [("a.com", .num 1)] rfl rfl).1⟩

/-! ## C5: solver fails fast without an API key -/

/-- C5: for every target site URL, when `CAPSOLVER_API_KEY` is not configured
(falsy), `getCapsolverToken` returns absent immediately without raising and
performs no network call: the `createTask` request is never attempted and no
poll is made. -/
theorem c5_solve_absent_no_network_without_api_key :
    ∀ env : SolverEnv, env.apiKey = "" →
      getCapsolverToken env = (none, false, 0) := by
  intro env h
  simp [getCapsolverToken, h]

/-- Witness for C5 at a concrete environment whose requests would all answer. -/
theorem c5_solve_absent_no_network_without_api_key_witness :
    getCapsolverToken ⟨"", .resp (.obj [("taskId", .str "t")]),
      fun _ => .resp (.obj [("status", .str "ready")])⟩ = (none, false, 0) :=
  c5_solve_absent_no_network_without_api_key
    ⟨"", .resp (.obj [("taskId", .str "t")]),
      fun _ => .resp (.obj [("status", .str "ready")])⟩ rfl

/-! ## C3: cache load semantics -/

/-- C3: for every subject, `loadSignatureFromCache` returns absent (never
raising) when the store file is missing, unparsable, has no entry for the
subject, or the entry's `validUntil` is not strictly after the current time;
and whenever it does not return absent, the entry exists, its `validUntil` is
a string timestamp strictly in the future, and the returned triple is exactly
the cached signature, validUntil and auxiliary payload. -/
theorem c3_load_absent_on_missing_corrupt_or_expired :
    ∀ (now : Int) (isoToTs : String → Int) (domain : String),
      loadSignatureFromCache .missing now isoToTs domain =
        (none, none, none) ∧
      loadSignatureFromCache .unparsable now isoToTs domain =
        (none, none, none) ∧
      (∀ cd : Json, cd.look domain = none →
        loadSignatureFromCache (.parsed cd) now isoToTs domain =
          (none, none, none)) ∧
      (∀ (cd entry : Json) (s : String), cd.look domain = some entry →
        entry.look "validUntil" = some (.str s) → isoToTs s ≤ now →
        loadSignatureFromCache (.parsed cd) now isoToTs domain =
          (none, none, none)) ∧
      (∀ file : FileRead,
        loadSignatureFromCache file now isoToTs domain ≠ (none, none, none) →
        ∃ (cd entry : Json) (s : String), file = .parsed cd ∧
          cd.look domain = some entry ∧ entry.truthy = true ∧
          entry.look "validUntil" = some (.str s) ∧ now < isoToTs s ∧
          loadSignatureFromCache file now isoToTs domain =
            (entry.look "signature", some (.str s),
              entry.look "overviewData")) := by
  intro now isoToTs domain
  refine ⟨rfl, rfl, ?_, ?_, ?_⟩
  · intro cd h
    simp [loadSignatureFromCache, h]
  · intro cd entry s h1 h2 h3
    simp only [loadSignatureFromCache, h1, h2]
    split
    · rfl
    · split
      · rw [if_neg (by omega)]
      · rfl
  · intro file hne
    match hfile : file with
    | .missing => exact absurd rfl hne
    | .unparsable => exact absurd rfl hne
    | .parsed cd =>
      simp only [loadSignatureFromCache] at hne
      match hdc : cd.look domain with
      | none => simp [hdc] at hne
      | some entry =>
        by_cases ht : entry.truthy
        · match hvu : entry.look "validUntil" with
          | some (.str s) =>
            cases hstr : (Json.str s).truthy with
            | false => simp [hdc, ht, hvu, hstr] at hne
            | true =>
              by_cases hlt : now < isoToTs s
              · exact ⟨cd, entry, s, rfl, hdc, ht, hvu, hlt,
                  by simp [loadSignatureFromCache, hdc, ht, hvu, hstr, hlt]⟩
              · simp [hdc, ht, hvu, hstr, hlt] at hne
          | some .null => simp [hdc, ht, hvu] at hne
          | some (.bool b) => simp [hdc, ht, hvu] at hne
          | some (.num n) => simp [hdc, ht, hvu] at hne
          | some (.arr l) => simp [hdc, ht, hvu] at hne
          | some (.obj f) => simp [hdc, ht, hvu] at hne
          | none => simp [hdc, ht, hvu] at hne
        · simp [ht, hdc] at hne

/-- Witness for C3 at concrete stores: a store with an expired entry and a
store with a live entry. -/
theorem c3_load_absent_on_missing_corrupt_or_expired_witness :
    loadSignatureFromCache
      (.parsed (.obj [("d.com", .obj [("signature", .str "sg"),
        ("validUntil", .str "2020-01-01T00:00:00Z")])]))
      100 (fun _ => 50) "d.com" = (none, none, none) :=
  ((c3_load_absent_on_missing_corrupt_or_expired 100 (fun _ => 50)
      "d.com").2.2.2.1
    (.obj [("d.com", .obj [("signature", .str "sg"),
      ("validUntil", .str "2020-01-01T00:00:00Z")])])
    (.obj [("signature", .str "sg"),
      ("validUntil", .str "2020-01-01T00:00:00Z")])
    "2020-01-01T00:00:00Z" rfl rfl (by norm_num))

/-! ## C2: mint success condition -/

/-- Counterexample to C2 as stated: (1) a 200 response whose array shape
matches and whose nested `signedInput` has both `signature` and
`input.validUntil` present — the signature being the empty string — makes
`getSignatureAndOverview` return absent and skip the cache save, although the
claim's "exactly when … present" requires the credential to be returned;
(2) a status-201 response with a fully well-formed body also returns absent,
although the claim's success condition mentions only the body shape. -/
theorem c2_counterexample_present_but_falsy_signature :
    sigChain c2EmptySigBody = some (.str "") ∧
    vuChain c2EmptySigBody = some (.str "2030-01-01T00:00:00Z") ∧
    getSignatureAndOverview .missing false 0 (some ⟨200, c2EmptySigBody⟩)
      "d.com" = ((none, none, none), .missing, false) ∧
    sigChain c2GoodBody = some (.str "sig") ∧
    vuChain c2GoodBody = some (.str "2030-01-01T00:00:00Z") ∧
    getSignatureAndOverview .missing false 0 (some ⟨201, c2GoodBody⟩)
      "d.com" = ((none, none, none), .missing, false) :=
  ⟨rfl, rfl, rfl, rfl, rfl, rfl⟩

/-- C2 (amended): `getSignatureAndOverview` returns the credential exactly
when the HTTP status is 200 and the response body is an array of length
above 1 whose second element's `signedInput` carries a truthy `signature`
and a truthy `input.validUntil`; in that success case it persists the
credential to the cache via `saveSignatureToCache` before returning, and in
every other case (missing or falsy signature/validUntil, array shape
mismatch, status other than 200, thrown request) it returns absent without
raising and without saving. -/
theorem c2_amended_mint_success_iff_and_persists :
    ∀ (file : FileRead) (wf : Bool) (now : Int) (resp : Option HttpResp)
      (domain : String),
      (mintSuccessSpec resp = false →
        getSignatureAndOverview file wf now resp domain =
          ((none, none, none), file, false)) ∧
      (∀ (r : HttpResp) (sg vu : Json), resp = some r →
        sigChain r.data = some sg → vuChain r.data = some vu →
        mintSuccessSpec resp = true →
        getSignatureAndOverview file wf now resp domain =
          ((some sg, some vu, ovChain r.data),
           (saveSignatureToCache file wf now sg vu (ovChain r.data)
             domain).2, true)) := by
  intro file wf now resp domain
  constructor
  · cases resp with
    | none => intro _; rfl
    | some r =>
      intro h
      simp only [mintSuccessSpec] at h
      cases hst : (r.status == 200) with
      | false =>
        have hbne : (r.status != 200) = true := by simp [bne, hst]
        simp [getSignatureAndOverview, hbne]
      | true =>
        have hbne : (r.status != 200) = false := by simp [bne, hst]
        rw [hst] at h
        simp only [Bool.true_and] at h
        cases hd : r.data with
        | arr items =>
          have h' : (decide (items.length > 1) &&
              truthyOpt (sigChain (Json.arr items)) &&
              truthyOpt (vuChain (Json.arr items))) = false := by
            rw [hd] at h
            exact h
          cases hlen : decide (items.length > 1) with
          | false =>
            simp [getSignatureAndOverview, hbne, hd, hlen]
          | true =>
            rw [hlen, Bool.true_and] at h'
            simp only [getSignatureAndOverview, hd]
            rw [if_neg (by simp [hbne])]
            rw [if_pos (by simp [hlen])]
            rw [if_neg (by simp [h'])]
        | null => simp [getSignatureAndOverview, hbne, hd]
        | bool b => simp [getSignatureAndOverview, hbne, hd]
        | num n => simp [getSignatureAndOverview, hbne, hd]
        | str s => simp [getSignatureAndOverview, hbne, hd]
        | obj f => simp [getSignatureAndOverview, hbne, hd]
  · intro r sg vu hr hsig hvu hspec
    subst hr
    simp only [mintSuccessSpec] at hspec
    obtain ⟨⟨⟨h200, hshape⟩, hsg⟩, hvu'⟩ := by
      simpa only [Bool.and_eq_true] using hspec
    have hbne : (r.status != 200) = false := by simp [bne, h200]
    cases hd : r.data with
    | arr items =>
      have hshape' : decide (items.length > 1) = true := by
        rw [hd] at hshape
        exact hshape
      have hsg2 : truthyOpt (sigChain (Json.arr items)) = true := by
        rw [hd] at hsg
        exact hsg
      have hvu2 : truthyOpt (vuChain (Json.arr items)) = true := by
        rw [hd] at hvu'
        exact hvu'
      rw [hd] at hsig hvu
      simp only [getSignatureAndOverview, hd]
      rw [if_neg (by simp [hbne])]
      rw [if_pos (by simp [hshape'])]
      rw [if_pos (by simp [hsg2, hvu2])]
      rw [hsig, hvu]
      rfl
    | null => rw [hd] at hshape; simp at hshape
    | bool b => rw [hd] at hshape; simp at hshape
    | num n => rw [hd] at hshape; simp at hshape
    | str s => rw [hd] at hshape; simp at hshape
    | obj f => rw [hd] at hshape; simp at hshape

/-- Witness for the amended C2: a thrown request returns absent, and the
concrete well-formed 200 response returns and persists the credential. -/
theorem c2_amended_mint_success_iff_witness :
    getSignatureAndOverview .missing false 0 none "d.com" =
      ((none, none, none), .missing, false) ∧
    getSignatureAndOverview .missing false 0 (some ⟨200, c2GoodBody⟩)
      "d.com" =
      ((some (.str "sig"), some (.str "2030-01-01T00:00:00Z"),
        ovChain c2GoodBody),
       (saveSignatureToCache .missing false 0 (.str "sig")
         (.str "2030-01-01T00:00:00Z") (ovChain c2GoodBody) "d.com").2,
       true) :=
  ⟨(c2_amended_mint_success_iff_and_persists .missing false 0 none
      "d.com").1 rfl,
   (c2_amended_mint_success_iff_and_persists .missing false 0
      (some ⟨200, c2GoodBody⟩) "d.com").2 ⟨200, c2GoodBody⟩ (.str "sig")
      (.str "2030-01-01T00:00:00Z") rfl rfl rfl rfl⟩

/-! ## Shared helper: a successful mint -/

theorem mint_success_eq (file : FileRead) (wf : Bool) (now : Int)
    (domain : String) (first second : Json) (rest : List Json) (sg vu : Json)
    (hsig : jchain (jchain (some second) "signedInput") "signature" =
      some sg)
    (hsgT : sg.truthy = true)
    (hvu : jchain (jchain (jchain (some second) "signedInput") "input")
      "validUntil" = some vu)
    (hvuT : vu.truthy = true) :
    getSignatureAndOverview file wf now
        (some ⟨200, .arr (first :: second :: rest)⟩) domain =
      ((some sg, some vu, jchain (some second) "data"),
       (saveSignatureToCache file wf now sg vu
         (jchain (some second) "data") domain).2, true) := by
  have hchain : sigChain (.arr (first :: second :: rest)) = some sg := hsig
  have hchain2 : vuChain (.arr (first :: second :: rest)) = some vu := hvu
  simp only [getSignatureAndOverview]
  rw [if_neg (by simp)]
  rw [if_pos (by simp)]
  rw [if_pos (by simp [hchain, hchain2, truthyOpt, hsgT, hvuT])]
  rw [hchain, hchain2]
  rfl

/-! ## C10: mint never inspects the response tag -/

/-- C10: `getSignatureAndOverview` never inspects the first element of the
platform's tagged response array: for every 200 response whose body is an
array of length above 1 and whose second element carries a truthy
`signedInput.signature` and `signedInput.input.validUntil`, mint succeeds and
persists the credential whatever the first element is, and replacing the
first element never changes mint's result — unlike `getKeywordDifficulty` and
`checkTraffic`, which raise the Invalid-response-format error whenever the
first element is not the tag `"Ok"`. -/
theorem c10_mint_ignores_tag_element :
    ∀ (file : FileRead) (wf : Bool) (now : Int) (domain : String)
      (first second : Json) (rest : List Json) (sg vu : Json),
      jchain (jchain (some second) "signedInput") "signature" = some sg →
      sg.truthy = true →
      jchain (jchain (jchain (some second) "signedInput") "input")
        "validUntil" = some vu →
      vu.truthy = true →
      (getSignatureAndOverview file wf now
          (some ⟨200, .arr (first :: second :: rest)⟩) domain =
        ((some sg, some vu, jchain (some second) "data"),
         (saveSignatureToCache file wf now sg vu
           (jchain (some second) "data") domain).2, true)) ∧
      (∀ first2 : Json,
        getSignatureAndOverview file wf now
            (some ⟨200, .arr (first2 :: second :: rest)⟩) domain =
          getSignatureAndOverview file wf now
            (some ⟨200, .arr (first :: second :: rest)⟩) domain) ∧
      (∀ (kenv : KdEnv) (tenv : TrafficEnv) (keyword domainOrUrl : String),
        isTag (some first) "Ok" = false →
        truthyOpt (getCapsolverToken kenv.solver).1 = true →
        kenv.kdResp = some ⟨200, .arr (first :: second :: rest)⟩ →
        truthyOpt (getCapsolverToken tenv.solver).1 = true →
        tenv.trafficResp = some ⟨200, .arr (first :: second :: rest)⟩ →
        getKeywordDifficulty kenv keyword =
          .error ⟨"Invalid response format from Ahrefs API for keyword: " ++
            keyword, .API_ERROR, 500⟩ ∧
        checkTraffic tenv domainOrUrl =
          .error ⟨"Invalid response format from Ahrefs API for domain: " ++
            domainOrUrl, .API_ERROR, 500⟩) := by
  intro file wf now domain first second rest sg vu hsig hsgT hvu hvuT
  refine ⟨?_, ?_, ?_⟩
  · exact mint_success_eq file wf now domain first second rest sg vu
      hsig hsgT hvu hvuT
  · intro first2
    simp only [getSignatureAndOverview]
    rfl
  · intro kenv tenv keyword domainOrUrl htag htok1 hr1 htok2 hr2
    have hok : okTagged (.arr (first :: second :: rest)) = false := by
      simp [okTagged, jidx, Json.idx, htag]
    constructor
    · simp [getKeywordDifficulty, htok1, hr1, hok]
    · simp [checkTraffic, htok2, hr2, hok]

/-- Witness for C10: a concrete body tagged `"Error"` instead of `"Ok"` still
mints successfully, while the difficulty executor rejects it. -/
theorem c10_mint_ignores_tag_element_witness :
    getSignatureAndOverview .missing false 0
      (some ⟨200, .arr [.str "Error",
        .obj [("signedInput", .obj [("signature", .str "sig"),
          ("input", .obj [("validUntil", .str "2030-01-01T00:00:00Z")])])],
        .null]⟩) "d.com" =
      ((some (.str "sig"), some (.str "2030-01-01T00:00:00Z"),
        jchain (some (.obj [("signedInput",
          .obj [("signature", .str "sig"),
            ("input", .obj [("validUntil",
              .str "2030-01-01T00:00:00Z")])])])) "data"),
       (saveSignatureToCache .missing false 0 (.str "sig")
         (.str "2030-01-01T00:00:00Z")
         (jchain (some (.obj [("signedInput",
           .obj [("signature", .str "sig"),
             ("input", .obj [("validUntil",
               .str "2030-01-01T00:00:00Z")])])])) "data") "d.com").2,
       true) ∧
    getKeywordDifficulty
      ⟨⟨"key", .resp (.obj [("taskId", .str "t")]),
        fun _ => .resp (.obj [("status", .str "ready"),
          ("solution", .obj [("token", .str "tok")])])⟩,
       some ⟨200, .arr [.str "Error",
        .obj [("signedInput", .obj [("signature", .str "sig"),
          ("input", .obj [("validUntil", .str "2030-01-01T00:00:00Z")])])],
        .null]⟩⟩ "lean" =
      .error ⟨"Invalid response format from Ahrefs API for keyword: lean",
        .API_ERROR, 500⟩ :=
  ⟨(c10_mint_ignores_tag_element .missing false 0 "d.com" (.str "Error")
      (.obj [("signedInput", .obj [("signature", .str "sig"),
        ("input", .obj [("validUntil", .str "2030-01-01T00:00:00Z")])])])
      [.null] (.str "sig") (.str "2030-01-01T00:00:00Z")
      rfl rfl rfl rfl).1,
   ((c10_mint_ignores_tag_element .missing false 0 "d.com" (.str "Error")
      (.obj [("signedInput", .obj [("signature", .str "sig"),
        ("input", .obj [("validUntil", .str "2030-01-01T00:00:00Z")])])])
      [.null] (.str "sig") (.str "2030-01-01T00:00:00Z")
      rfl rfl rfl rfl).2.2
      ⟨⟨"key", .resp (.obj [("taskId", .str "t")]),
        fun _ => .resp (.obj [("status", .str "ready"),
          ("solution", .obj [("token", .str "tok")])])⟩,
       some ⟨200, .arr [.str "Error",
        .obj [("signedInput", .obj [("signature", .str "sig"),
          ("input", .obj [("validUntil", .str "2030-01-01T00:00:00Z")])])],
        .null]⟩⟩
      ⟨⟨"key", .resp (.obj [("taskId", .str "t")]),
        fun _ => .resp (.obj [("status", .str "ready"),
          ("solution", .obj [("token", .str "tok")])])⟩,
       some ⟨200, .arr [.str "Error",
        .obj [("signedInput", .obj [("signature", .str "sig"),
          ("input", .obj [("validUntil", .str "2030-01-01T00:00:00Z")])])],
        .null]⟩⟩
      "lean" "d.com" rfl rfl rfl rfl rfl).1⟩

/-! ## C4: bounded polling -/

theorem pollLoop_all_continue :
    ∀ (fuel a : Nat) (polls : Nat → NetOutcome),
      (∀ i, i < fuel → ∃ d, polls (a + i) = .resp d ∧
        pollContinues d = true) →
      pollLoop polls a fuel = (none, fuel) := by
  intro fuel
  induction fuel with
  | zero => intro a polls _; rfl
  | succ f ih =>
    intro a polls h
    obtain ⟨d, hd, hc⟩ := h 0 (Nat.succ_pos f)
    rw [Nat.add_zero] at hd
    have hc' := hc
    simp only [pollContinues, Bool.and_eq_true, Bool.not_eq_true',
      Bool.or_eq_false_iff] at hc'
    have h1 := hc'.1
    have h2 := hc'.2.1
    have h3 := hc'.2.2
    have hrec : pollLoop polls (a + 1) f = (none, f) := by
      apply ih
      intro i hi
      obtain ⟨d', hd', hc''⟩ := h (i + 1) (by omega)
      exact ⟨d', by rw [show a + 1 + i = a + (i + 1) by omega]; exact hd',
        hc''⟩
    simp [pollLoop, hd, h1, h2, h3, hrec]

theorem pollLoop_fail_at :
    ∀ (j : Nat) (fuel a : Nat) (polls : Nat → NetOutcome) (dj : Json),
      j < fuel →
      (∀ i, i < j → ∃ d, polls (a + i) = .resp d ∧ pollContinues d = true) →
      polls (a + j) = .resp dj →
      isTag (jchain (some dj) "status") "ready" = false →
      (isTag (jchain (some dj) "status") "failed" ||
        truthyOpt (jchain (some dj) "errorId")) = true →
      pollLoop polls a fuel = (none, j + 1) := by
  intro j
  induction j with
  | zero =>
    intro fuel a polls dj hj _ hdj h1 h2
    match fuel, hj with
    | f + 1, _ =>
      rw [Nat.add_zero] at hdj
      simp [pollLoop, hdj, h1, h2]
  | succ jj ih =>
    intro fuel a polls dj hj hcont hdj h1 h2
    match fuel, hj with
    | f + 1, _ =>
      obtain ⟨d, hd, hc⟩ := hcont 0 (Nat.succ_pos jj)
      rw [Nat.add_zero] at hd
      have hc' := hc
      simp only [pollContinues, Bool.and_eq_true, Bool.not_eq_true',
        Bool.or_eq_false_iff] at hc'
      have hrec : pollLoop polls (a + 1) f = (none, jj + 1) := by
        apply ih f (a + 1) polls dj (by omega)
        · intro i hi
          obtain ⟨d', hd', hc''⟩ := hcont (i + 1) (by omega)
          exact ⟨d', by rw [show a + 1 + i = a + (i + 1) by omega]
                        exact hd', hc''⟩
        · rw [show a + 1 + jj = a + (jj + 1) by omega]
          exact hdj
        · exact h1
        · exact h2
      simp [pollLoop, hd, hc'.1, hc'.2.1, hc'.2.2, hrec]

/-- Counterexample to C4 as stated: a first poll response that carries an
explicit truthy error indicator (`errorId: 1`) together with
`status: "ready"` does not make solve return absent — the source checks
`status === "ready"` first and returns the solution token. -/
theorem c4_counterexample_error_indicator_with_ready_status :
    truthyOpt (jchain (some (Json.obj [("status", .str "ready"),
      ("errorId", .num 1),
      ("solution", .obj [("token", .str "tok")])])) "errorId") = true ∧
    getCapsolverToken ⟨"key", .resp (.obj [("taskId", .str "t")]),
      fun _ => .resp (.obj [("status", .str "ready"), ("errorId", .num 1),
        ("solution", .obj [("token", .str "tok")])])⟩ =
      (some (.str "tok"), true, 1) :=
  ⟨rfl, rfl⟩

/-- C4 (amended): for every target site URL, once a task identifier is
obtained, if every poll response has a status that is neither `"ready"` nor
`"failed"` and no truthy error indicator, `getCapsolverToken` polls exactly
30 times — one fixed 1-second sleep before each poll — and then returns
absent (timeout); and a poll whose status is `"failed"`, or whose status is
not `"ready"` and which carries a truthy error indicator, makes it return
absent immediately, with no further polling. -/
theorem c4_amended_thirty_polls_then_timeout :
    (∀ (env : SolverEnv) (cd : Json), env.apiKey ≠ "" →
      env.createResp = .resp cd →
      truthyOpt (jchain (some cd) "taskId") = true →
      (∀ i, i < maxAttempts → ∃ d, env.polls i = .resp d ∧
        pollContinues d = true) →
      getCapsolverToken env = (none, true, 30)) ∧
    (∀ (env : SolverEnv) (cd : Json) (j : Nat) (dj : Json),
      env.apiKey ≠ "" → env.createResp = .resp cd →
      truthyOpt (jchain (some cd) "taskId") = true →
      j < maxAttempts →
      (∀ i, i < j → ∃ d, env.polls i = .resp d ∧ pollContinues d = true) →
      env.polls j = .resp dj →
      isTag (jchain (some dj) "status") "ready" = false →
      (isTag (jchain (some dj) "status") "failed" ||
        truthyOpt (jchain (some dj) "errorId")) = true →
      getCapsolverToken env = (none, true, j + 1)) := by
  constructor
  · intro env cd hkey hcr htid hcont
    have hk : (env.apiKey == "") = false := beq_eq_false_iff_ne.mpr hkey
    have hloop : pollLoop env.polls 0 30 = (none, 30) := by
      apply pollLoop_all_continue
      intro i hi
      rw [Nat.zero_add]
      exact hcont i hi
    simp [getCapsolverToken, hk, hcr, htid, maxAttempts, hloop]
  · intro env cd j dj hkey hcr htid hj hcont hdj h1 h2
    have hk : (env.apiKey == "") = false := beq_eq_false_iff_ne.mpr hkey
    have hloop : pollLoop env.polls 0 maxAttempts = (none, j + 1) := by
      apply pollLoop_fail_at j maxAttempts 0 env.polls dj hj
      · intro i hi
        rw [Nat.zero_add]
        exact hcont i hi
      · rw [Nat.zero_add]
        exact hdj
      · exact h1
      · exact h2
    simp [getCapsolverToken, hk, hcr, htid, hloop]

/-- Witness for the amended C4: an always-pending environment makes exactly
30 polls before the timeout, and an environment failing at the third poll
stops after exactly 3 polls. -/
theorem c4_amended_thirty_polls_then_timeout_witness :
    getCapsolverToken ⟨"key", .resp (.obj [("taskId", .str "t")]),
      fun _ => .resp (.obj [("status", .str "pending")])⟩ =
      (none, true, 30) ∧
    getCapsolverToken ⟨"key", .resp (.obj [("taskId", .str "t")]),
      fun i => if i < 2 then .resp (.obj [("status", .str "pending")])
        else .resp (.obj [("status", .str "failed")])⟩ =
      (none, true, 3) :=
  ⟨(c4_amended_thirty_polls_then_timeout).1
      ⟨"key", .resp (.obj [("taskId", .str "t")]),
        fun _ => .resp (.obj [("status", .str "pending")])⟩
      (.obj [("taskId", .str "t")])
      (by intro h; exact absurd h (by decide)) rfl rfl
      (fun i _ => ⟨.obj [("status", .str "pending")], rfl, rfl⟩),
   (c4_amended_thirty_polls_then_timeout).2
      ⟨"key", .resp (.obj [("taskId", .str "t")]),
        fun i => if i < 2 then .resp (.obj [("status", .str "pending")])
          else .resp (.obj [("status", .str "failed")])⟩
      (.obj [("taskId", .str "t")]) 2
      (.obj [("status", .str "failed")])
      (by intro h; exact absurd h (by decide)) rfl rfl
      (by decide)
      (by intro i hi
          exact ⟨.obj [("status", .str "pending")],
            by simp [hi], rfl⟩)
      (by norm_num) rfl rfl⟩

/-! ## C1: valid cached credential avoids solve and mint -/

theorem getBacklinks_cache_hit (env : BacklinksEnv) (domain : String)
    (cf entry sg : Json) (vu : String)
    (hfile : env.file = .parsed cf)
    (hdc : cf.look domain = some entry)
    (ht : entry.truthy = true)
    (hsig : entry.look "signature" = some sg)
    (hsgT : sg.truthy = true)
    (hvu : entry.look "validUntil" = some (.str vu))
    (hvuT : (Json.str vu).truthy = true)
    (hlt : env.now < env.isoToTs vu) :
    getBacklinks env domain =
      (backlinksListStep env.listResp domain (entry.look "overviewData"),
       env.file, false, false) := by
  have hload : loadSignatureFromCache env.file env.now env.isoToTs domain =
      (some sg, some (.str vu), entry.look "overviewData") := by
    rw [hfile]
    simp [loadSignatureFromCache, hdc, ht, hvu, hvuT, hlt, hsig]
  simp [getBacklinks, hload, truthyOpt, hsgT, hvuT]

/-- C1: for every subject, if the credential cache holds an entry for it
whose credential is well-formed (truthy signature string) and whose
`validUntil` is strictly in the future at call time, then `getBacklinks`
performs no challenge solve and no signature mint (neither
`getCapsolverToken` nor `getSignatureAndOverview` is invoked); hence two
`getBacklinks` calls for the same subject within the same validity window —
the first starting from an empty cache and minting successfully — perform
exactly one challenge solve and one signature mint, the second call being
served from the cache written by the first. -/
theorem c1_cached_credential_skips_solve_and_mint :
    (∀ (env : BacklinksEnv) (domain : String) (cf entry sg : Json)
      (vu : String),
      env.file = .parsed cf → cf.look domain = some entry →
      entry.truthy = true →
      entry.look "signature" = some sg → sg.truthy = true →
      entry.look "validUntil" = some (.str vu) →
      (Json.str vu).truthy = true →
      env.now < env.isoToTs vu →
      (getBacklinks env domain).2.2.1 = false ∧
      (getBacklinks env domain).2.2.2 = false) ∧
    (∀ (env : BacklinksEnv) (domain : String) (first second : Json)
      (rest : List Json) (sg : Json) (s : String),
      env.file = .missing →
      truthyOpt (getCapsolverToken env.solver).1 = true →
      env.mintResp = some ⟨200, .arr (first :: second :: rest)⟩ →
      jchain (jchain (some second) "signedInput") "signature" = some sg →
      sg.truthy = true →
      jchain (jchain (jchain (some second) "signedInput") "input")
        "validUntil" = some (.str s) →
      (Json.str s).truthy = true →
      env.writeFails = false →
      (getBacklinks env domain).2.2.1 = true ∧
      (getBacklinks env domain).2.2.2 = true ∧
      (∀ now2 : Int, now2 < env.isoToTs s →
        (getBacklinks
          { env with
            file := (getBacklinks env domain).2.1
            now := now2 } domain).2.2.1 = false ∧
        (getBacklinks
          { env with
            file := (getBacklinks env domain).2.1
            now := now2 } domain).2.2.2 = false)) := by
  constructor
  · intro env domain cf entry sg vu hfile hdc ht hsig hsgT hvu hvuT hlt
    rw [getBacklinks_cache_hit env domain cf entry sg vu hfile hdc ht hsig
      hsgT hvu hvuT hlt]
    exact ⟨rfl, rfl⟩
  · intro env domain first second rest sg s hfile htok hmint hsig hsgT hvu
      hvuT hwf
    have hload : loadSignatureFromCache env.file env.now env.isoToTs
        domain = (none, none, none) := by
      rw [hfile]
      rfl
    have hmintEq : getSignatureAndOverview env.file env.writeFails env.now
        env.mintResp domain =
        ((some sg, some (.str s), jchain (some second) "data"),
         (saveSignatureToCache env.file env.writeFails env.now sg (.str s)
           (jchain (some second) "data") domain).2, true) := by
      rw [hmint]
      exact mint_success_eq env.file env.writeFails env.now domain first
        second rest sg (.str s) hsig hsgT hvu hvuT
    have hsave : (saveSignatureToCache env.file env.writeFails env.now sg
        (.str s) (jchain (some second) "data") domain).2 =
        .parsed (.obj [(domain, cacheEntry sg (.str s)
          (jchain (some second) "data") env.now)]) := by
      rw [hfile, hwf]
      simp [saveSignatureToCache, readableStore, cacheSet]
    have hrun : getBacklinks env domain =
        (backlinksListStep env.listResp domain (jchain (some second) "data"),
         (saveSignatureToCache env.file env.writeFails env.now sg (.str s)
           (jchain (some second) "data") domain).2, true, true) := by
      simp only [getBacklinks, hload]
      rw [if_pos (by simp [truthyOpt])]
      rw [if_neg (by simp [htok])]
      rw [hmintEq]
      rw [if_neg (by simp [truthyOpt, hsgT, hvuT])]
    refine ⟨by rw [hrun], by rw [hrun], ?_⟩
    intro now2 hlt2
    have hfile2 : (getBacklinks env domain).2.1 =
        .parsed (.obj [(domain, cacheEntry sg (.str s)
          (jchain (some second) "data") env.now)]) := by
      rw [hrun]
      exact hsave
    have hhit := getBacklinks_cache_hit
      { env with
        file := (getBacklinks env domain).2.1
        now := now2 }
      domain
      (.obj [(domain, cacheEntry sg (.str s)
        (jchain (some second) "data") env.now)])
      (cacheEntry sg (.str s) (jchain (some second) "data") env.now)
      sg s
      (by simpa using hfile2)
      (by simp [Json.look, List.lookup])
      (by cases hov : jchain (some second) "data" <;> rfl)
      (by simp [cacheEntry, Json.look, List.lookup])
      hsgT
      (by simp [cacheEntry, Json.look, List.lookup])
      hvuT
      (by simpa using hlt2)
    rw [hhit]
    exact ⟨rfl, rfl⟩

/-- Witness for C1: a concrete cache with a live entry for `d.com` skips
solve and mint; a concrete first call from an empty cache solves and mints,
and the follow-up call at a later time inside the validity window does not. -/
theorem c1_cached_credential_skips_solve_and_mint_witness :
    (getBacklinks
      ⟨.parsed (.obj [("d.com", .obj [("signature", .str "sg"),
        ("validUntil", .str "2030-01-01T00:00:00Z")])]), false, 0,
       fun _ => 100, ⟨"", .thrown, fun _ => .thrown⟩, none,
       some ⟨200, .obj []⟩⟩ "d.com").2.2.1 = false ∧
    (getBacklinks
      ⟨.missing, false, 0, fun _ => 100,
       ⟨"key", .resp (.obj [("taskId", .str "t")]),
        fun _ => .resp (.obj [("status", .str "ready"),
          ("solution", .obj [("token", .str "tok")])])⟩,
       some ⟨200, .arr [.str "Ok", .obj [("signedInput",
         .obj [("signature", .str "sig"), ("input",
           .obj [("validUntil", .str "2030-01-01T00:00:00Z")])])]]⟩,
       some ⟨200, .obj []⟩⟩ "d.com").2.2.1 = true ∧
    (getBacklinks
      { (⟨.missing, false, 0, fun _ => 100,
          ⟨"key", .resp (.obj [("taskId", .str "t")]),
           fun _ => .resp (.obj [("status", .str "ready"),
             ("solution", .obj [("token", .str "tok")])])⟩,
          some ⟨200, .arr [.str "Ok", .obj [("signedInput",
            .obj [("signature", .str "sig"), ("input",
              .obj [("validUntil", .str "2030-01-01T00:00:00Z")])])]]⟩,
          some ⟨200, .obj []⟩⟩ : BacklinksEnv) with
        file := (getBacklinks
          ⟨.missing, false, 0, fun _ => 100,
           ⟨"key", .resp (.obj [("taskId", .str "t")]),
            fun _ => .resp (.obj [("status", .str "ready"),
              ("solution", .obj [("token", .str "tok")])])⟩,
           some ⟨200, .arr [.str "Ok", .obj [("signedInput",
             .obj [("signature", .str "sig"), ("input",
               .obj [("validUntil", .str "2030-01-01T00:00:00Z")])])]]⟩,
           some ⟨200, .obj []⟩⟩ "d.com").2.1
        now := 50 } "d.com").2.2.1 = false := by
  refine ⟨?_, ?_, ?_⟩
  · exact (c1_cached_credential_skips_solve_and_mint.1
      ⟨.parsed (.obj [("d.com", .obj [("signature", .str "sg"),
        ("validUntil", .str "2030-01-01T00:00:00Z")])]), false, 0,
       fun _ => 100, ⟨"", .thrown, fun _ => .thrown⟩, none,
       some ⟨200, .obj []⟩⟩ "d.com"
      (.obj [("d.com", .obj [("signature", .str "sg"),
        ("validUntil", .str "2030-01-01T00:00:00Z")])])
      (.obj [("signature", .str "sg"),
        ("validUntil", .str "2030-01-01T00:00:00Z")])
      (.str "sg") "2030-01-01T00:00:00Z"
      rfl rfl rfl rfl rfl rfl rfl (by norm_num)).1
  · exact (c1_cached_credential_skips_solve_and_mint.2
      ⟨.missing, false, 0, fun _ => 100,
       ⟨"key", .resp (.obj [("taskId", .str "t")]),
        fun _ => .resp (.obj [("status", .str "ready"),
          ("solution", .obj [("token", .str "tok")])])⟩,
       some ⟨200, .arr [.str "Ok", .obj [("signedInput",
         .obj [("signature", .str "sig"), ("input",
           .obj [("validUntil", .str "2030-01-01T00:00:00Z")])])]]⟩,
       some ⟨200, .obj []⟩⟩ "d.com"
      (.str "Ok")
      (.obj [("signedInput", .obj [("signature", .str "sig"), ("input",
        .obj [("validUntil", .str "2030-01-01T00:00:00Z")])])])
      [] (.str "sig") "2030-01-01T00:00:00Z"
      rfl rfl rfl rfl rfl rfl rfl rfl).1
  · exact ((c1_cached_credential_skips_solve_and_mint.2
      ⟨.missing, false, 0, fun _ => 100,
       ⟨"key", .resp (.obj [("taskId", .str "t")]),
        fun _ => .resp (.obj [("status", .str "ready"),
          ("solution", .obj [("token", .str "tok")])])⟩,
       some ⟨200, .arr [.str "Ok", .obj [("signedInput",
         .obj [("signature", .str "sig"), ("input",
           .obj [("validUntil", .str "2030-01-01T00:00:00Z")])])]]⟩,
       some ⟨200, .obj []⟩⟩ "d.com"
      (.str "Ok")
      (.obj [("signedInput", .obj [("signature", .str "sig"), ("input",
        .obj [("validUntil", .str "2030-01-01T00:00:00Z")])])])
      [] (.str "sig") "2030-01-01T00:00:00Z"
      rfl rfl rfl rfl rfl rfl rfl rfl).2.2 50 (by norm_num)).1
